import Mathlib

/-!
Shallow embedding of `src/policy.rs` of the sget repository: the signed
root-policy data model (`Policy`, `Signature`, `Signed`, `RoleKeys`,
`RoleType`, `Key`), the raw-fragment splitter (`RawPolicy`), and the
methods `Policy::validate_expires`, `Policy::extract_pub_key` and
`Policy::verify_signature`.

Modelling conventions:
- byte buffers (`&[u8]`, `Vec<u8>`) are `List Nat` with entries < 256;
- Rust `Result<T, anyhow::Error>` is an explicit sum; since an
  out-of-bounds index (`self.signatures[0]` on an empty vector)
  aborts instead of returning, method results live in `RustResult`,
  which distinguishes `ok`, `err` and `panicked`;
- the external crates (`x509_parser`, `p256`/`ecdsa`) are parameters:
  an `ExternCrypto` record of total functions, since their behaviour is
  outside this repository; `base64::decode` is modelled concretely
  because the spec's scenarios depend on its rejection of truncated
  input; `chrono::Utc::now()` is modelled by passing the instant the
  ambient clock would return as an explicit argument `now`.
-/

deriving instance DecidableEq for Except

/-- A byte buffer (`Vec<u8>` / `&[u8]`). -/
abbrev Bytes := List Nat

/-- UTF-8 bytes of a Rust `String`; the strings in scope are ASCII, where
codepoint and byte coincide. -/
def strBytes (s : String) : Bytes := s.data.map Char.toNat

/-- Errors of `base64::decode` (crate `base64`, `DecodeError`). The real
`InvalidLastSymbol` carries an offset and a byte; the claims never inspect
them, so the model drops the payload. -/
inductive DecodeError where
  | InvalidByte (offset : Nat) (byte : Nat)
  | InvalidLength
  | InvalidLastSymbol
deriving DecidableEq, Repr

/-- Value of one character of the standard base64 alphabet
(`A`-`Z`, `a`-`z`, `0`-`9`, `+`, `/`), by byte code. -/
def b64Val (b : Nat) : Option Nat :=
  if 65 ≤ b ∧ b ≤ 90 then some (b - 65)
  else if 97 ≤ b ∧ b ≤ 122 then some (b - 97 + 26)
  else if 48 ≤ b ∧ b ≤ 57 then some (b - 48 + 52)
  else if b = 43 then some 62
  else if b = 47 then some 63
  else none

/-- Map each byte to its 6-bit value, reporting the first byte outside the
alphabet as `InvalidByte` with its offset. -/
def b64CheckBytes : Bytes → Nat → Except DecodeError (List Nat)
  | [], _ => .ok []
  | b :: rest, i =>
    match b64Val b with
    | none => .error (.InvalidByte i b)
    | some v => (b64CheckBytes rest (i + 1)).map (v :: ·)

/-- Reassemble 6-bit values into bytes: each full group of four yields
three bytes; a final group of two or three yields one or two bytes and
must have its discarded low bits zero; a final group of one is an invalid
length. -/
def b64DecodeVals : List Nat → Except DecodeError Bytes
  | [] => .ok []
  | [_] => .error .InvalidLength
  | [a, b] =>
    if b % 16 = 0 then .ok [a * 4 + b / 16] else .error .InvalidLastSymbol
  | [a, b, c] =>
    if c % 4 = 0 then .ok [a * 4 + b / 16, b % 16 * 16 + c / 4]
    else .error .InvalidLastSymbol
  | a :: b :: c :: d :: rest =>
    (b64DecodeVals rest).map
      (fun r => (a * 4 + b / 16) :: (b % 16 * 16 + c / 4) :: (c % 4 * 64 + d) :: r)

/-- Number of padding bytes `=` (code 61) at the end of the input, capped
at two as in the crate. -/
def b64PadLen (l : Bytes) : Nat :=
  match l.reverse with
  | 61 :: 61 :: _ => 2
  | 61 :: _ => 1
  | _ => 0

/-- Modelled from the `base64` crate: `base64::decode` with the standard
alphabet, as called by `policy.rs`. Strips up to two trailing `=` bytes,
rejects any remaining byte outside the alphabet, rejects a symbol count
congruent to 1 mod 4 (e.g. truncated input) as `InvalidLength`, and
rejects nonzero discarded bits in the final group. -/
def base64decode (l : Bytes) : Except DecodeError Bytes :=
  match b64CheckBytes (l.take (l.length - b64PadLen l)) 0 with
  | .error e => .error e
  | .ok vals => b64DecodeVals vals

/-- Rust `pub type CosignVerificationKey = VerifyingKey<p256::NistP256>`:
an opaque verification key, carried as the bytes it was decoded from. -/
structure CosignVerificationKey where
  raw : Bytes
deriving DecidableEq, Repr

/-- Rust `ecdsa::Signature<p256::NistP256>`: an opaque parsed DER signature. -/
structure DerSignature where
  raw : Bytes
deriving DecidableEq, Repr

/-- The external crates used by `policy.rs`, as total functions:
`x509_parser::pem::parse_x509_pem` (result: `pem.contents`),
`x509_parser::parse_x509_certificate` (result: `public_key().raw`),
`VerifyingKey::from_public_key_der`, `Signature::from_der`, and
`Verifier::verify` (`true` = `Ok(())`). Error payloads are the messages
the crates would format into the wrapping errors. -/
structure ExternCrypto where
  parse_x509_pem : Bytes → Except String Bytes
  parse_x509_certificate : Bytes → Except String Bytes
  from_public_key_der : Bytes → Except String CosignVerificationKey
  signature_from_der : Bytes → Except String DerSignature
  verify : CosignVerificationKey → Bytes → DerSignature → Bool

/-- The `anyhow::Error` values `extract_pub_key` and `verify_signature`
can return, one constructor per construction site in `policy.rs`:
a `base64::DecodeError` converted by `?`; `anyhow!("Error parsing fulcio
PEM certificate: {:?}", e)`; `anyhow!("Error parsing fulcio certificate:
{:?}", e)`; `anyhow!("Cannot load key: {:?}", e)`; an `ecdsa::Error` from
`Signature::from_der` converted by `?`; and `anyhow!("Verification
failed: {:?}", e)`. -/
inductive AnyhowError where
  | base64 (e : DecodeError)
  | pemParse (msg : String)
  | x509Parse (msg : String)
  | keyLoad (msg : String)
  | sigDer (msg : String)
  | verificationFailed (msg : String)
deriving DecidableEq, Repr

/-- Outcome of calling a Rust method: a normal `Ok`, a normal `Err`, or a
panic (abnormal termination, e.g. out-of-bounds indexing). -/
inductive RustResult (α : Type) where
  | ok (a : α)
  | err (e : AnyhowError)
  | panicked (msg : String)
deriving DecidableEq, Repr

/-- Whether a `RustResult` is a panic. -/
def RustResult.isPanic {α : Type} : RustResult α → Bool
  | .panicked _ => true
  | _ => false

/-- Whether a `RustResult` is a normal `Err`. -/
def RustResult.isErr {α : Type} : RustResult α → Bool
  | .err _ => true
  | _ => false

/-- Rust `struct Signature { keyid, sig, cert }` of `policy.rs`. -/
structure Signature where
  keyid : String
  sig : String
  cert : String
deriving DecidableEq, Repr

/-- Rust `std::num::NonZeroU64`: a 64-bit integer that the type itself keeps
nonzero. -/
def NonZeroU64 := { n : Nat // 0 < n ∧ n < 2 ^ 64 }

instance : DecidableEq NonZeroU64 := fun a b =>
  decidable_of_iff (a.val = b.val) Subtype.val_inj

/-- Rust `struct SigstoreOidcKey { identity, issuer }` of `policy.rs`. -/
structure SigstoreOidcKey where
  identity : String
  issuer : String
deriving DecidableEq, Repr

/-- Rust `enum Key` of `policy.rs`: tagged by `keytype`, single variant
`SigstoreOidc` (tag string `"sigstore-oidc"`), carrying `keyval`,
`scheme` and the flattened unrecognized fields (modelled as raw
key/value text pairs). -/
inductive Key where
  | SigstoreOidc (keyval : SigstoreOidcKey) (scheme : String)
      (extra : List (String × String))
deriving DecidableEq, Repr

/-- Rust `struct RoleKeys { keyids, threshold }` of `policy.rs`. -/
structure RoleKeys where
  keyids : List String
  threshold : NonZeroU64
deriving DecidableEq

/-- Rust `struct Signed` of `policy.rs`; `expires: DateTime<Utc>` is the
instant as an integer timestamp, `HashMap`s are association lists, and
the field `namespace` is renamed `namespaceField` (keyword in Lean). -/
structure Signed where
  consistent_snapshot : Bool
  expires : Int
  keys : List (String × Key)
  namespaceField : String
  roles : List (String × RoleKeys)
  spec_version : String
  version : NonZeroU64
deriving DecidableEq

/-- Rust `struct Policy { signatures, signed }` of `policy.rs`. -/
structure Policy where
  signatures : List Signature
  signed : Signed
deriving DecidableEq

/-- Rust `Policy::validate_expires`: `self.signed.expires.signed_duration_since(Utc::now())`,
that is `expires - now` as a signed duration. The Rust method takes no
parameter; `now` here is the instant the ambient call `Utc::now()`
returns at the moment of the call. -/
def Policy.validate_expires (p : Policy) (now : Int) : Int :=
  p.signed.expires - now

/-- Body of `Policy::extract_pub_key` on the borrowed entry
`self.signatures[0]`: `base64::decode(&s0.cert)?`, then
`parse_x509_pem`, `parse_x509_certificate`, take `public_key().raw`,
then `from_public_key_der`; each stage's failure is wrapped in its own
error. -/
def extractPubKeyOn (C : ExternCrypto) (s0 : Signature) :
    RustResult CosignVerificationKey :=
  match base64decode (strBytes s0.cert) with
  | .error e => .err (.base64 e)
  | .ok cert =>
    match C.parse_x509_pem cert with
    | .error e => .err (.pemParse e)
    | .ok pemContents =>
      match C.parse_x509_certificate pemContents with
      | .error e => .err (.x509Parse e)
      | .ok pubKeyBytes =>
        match C.from_public_key_der pubKeyBytes with
        | .error e => .err (.keyLoad e)
        | .ok k => .ok k

/-- Rust `Policy::extract_pub_key`: runs `extractPubKeyOn` on
`self.signatures[0]`; indexing an empty vector is an out-of-bounds
panic. -/
def Policy.extract_pub_key (C : ExternCrypto) (p : Policy) :
    RustResult CosignVerificationKey :=
  match p.signatures.head? with
  | none => .panicked "index out of bounds: the len is 0 but the index is 0"
  | some s0 => extractPubKeyOn C s0

/-- Body of `Policy::verify_signature` on the borrowed entry
`self.signatures[0]`: `base64::decode(&s0.sig)?`, then
`Signature::from_der(&signature_raw)?`, then
`verification_key.verify(msg, &signature)` with its error wrapped as
`"Verification failed: {:?}"`. -/
def verifySignatureOn (C : ExternCrypto) (s0 : Signature)
    (verification_key : CosignVerificationKey) (msg : Bytes) :
    RustResult Unit :=
  match base64decode (strBytes s0.sig) with
  | .error e => .err (.base64 e)
  | .ok signature_raw =>
    match C.signature_from_der signature_raw with
    | .error e => .err (.sigDer e)
    | .ok signature =>
      if C.verify verification_key msg signature then .ok ()
      else .err (.verificationFailed "Verification failed: Error")

/-- Rust `Policy::verify_signature`: runs `verifySignatureOn` on
`self.signatures[0]`; indexing an empty vector is an out-of-bounds
panic. -/
def Policy.verify_signature (C : ExternCrypto) (p : Policy)
    (verification_key : CosignVerificationKey) (msg : Bytes) :
    RustResult Unit :=
  match p.signatures.head? with
  | none => .panicked "index out of bounds: the len is 0 but the index is 0"
  | some s0 => verifySignatureOn C s0 verification_key msg

/-!
### The raw splitter `RawPolicy`

`struct RawPolicy` of `policy.rs` holds the two top-level values of the
document as `&RawValue` borrows: serde_json hands each field the exact
byte span of the corresponding JSON value in the input, with no
re-serialization. The scanner below is modelled from that serde_json
behaviour (serde_json is an external crate): it walks the top-level
object, computes the extent of each member's value, and returns slices
of the original input.
-/

/-- JSON whitespace byte (space, tab, line feed, carriage return). -/
def isWsByte (b : Nat) : Bool := b = 32 || b = 9 || b = 10 || b = 13

/-- First position at or after `i` holding a non-whitespace byte (or the
end of the input). Fuel-driven; callers pass fuel > `l.length`. -/
def skipWs : Nat → Bytes → Nat → Nat
  | 0, _, i => i
  | fuel + 1, l, i =>
    if i < l.length ∧ isWsByte (l.getD i 0) then skipWs fuel l (i + 1) else i

/-- Position just past the closing quote of a JSON string whose opening
quote sits at `i - 1`; a backslash escapes the following byte. -/
def scanStringEnd : Nat → Bytes → Nat → Option Nat
  | 0, _, _ => none
  | fuel + 1, l, i =>
    if i < l.length then
      if l.getD i 0 = 34 then some (i + 1)
      else if l.getD i 0 = 92 then scanStringEnd fuel l (i + 2)
      else scanStringEnd fuel l (i + 1)
    else none

/-- Position just past the bracket closing the object or array that opens
at or before `i`, tracking nesting depth and skipping strings. -/
def scanBalancedEnd : Nat → Bytes → Nat → Nat → Option Nat
  | 0, _, _, _ => none
  | fuel + 1, l, i, depth =>
    if i < l.length then
      if l.getD i 0 = 34 then
        match scanStringEnd (l.length + 2) l (i + 1) with
        | none => none
        | some j => scanBalancedEnd fuel l j depth
      else if l.getD i 0 = 123 ∨ l.getD i 0 = 91 then
        scanBalancedEnd fuel l (i + 1) (depth + 1)
      else if l.getD i 0 = 125 ∨ l.getD i 0 = 93 then
        if depth = 1 then some (i + 1)
        else scanBalancedEnd fuel l (i + 1) (depth - 1)
      else scanBalancedEnd fuel l (i + 1) depth
    else none

/-- End of a primitive JSON value (number, `true`, `false`, `null`)
starting at `i`: the first comma, closing bracket, whitespace byte or end
of input. -/
def scanPrimEnd : Nat → Bytes → Nat → Nat
  | 0, _, i => i
  | fuel + 1, l, i =>
    if i < l.length then
      if l.getD i 0 = 44 ∨ l.getD i 0 = 125 ∨ l.getD i 0 = 93 ∨ isWsByte (l.getD i 0) then i
      else scanPrimEnd fuel l (i + 1)
    else i

/-- Exclusive end position of the JSON value starting at `i`. -/
def scanValueEnd (l : Bytes) (i : Nat) : Option Nat :=
  if i < l.length then
    if l.getD i 0 = 34 then scanStringEnd (l.length + 2) l (i + 1)
    else if l.getD i 0 = 123 ∨ l.getD i 0 = 91 then
      scanBalancedEnd (l.length + 2) l i 0
    else some (scanPrimEnd (l.length + 2) l i)
  else none

/-- The contiguous span of `l` from `i` (inclusive) to `j` (exclusive). -/
def byteSlice (l : Bytes) (i j : Nat) : Bytes := (l.drop i).take (j - i)

/-- Members of the top-level object, each as a key span and a value span;
`i` sits at the opening quote of the next key. -/
def parseMembersAux : Nat → Bytes → Nat → Option (List ((Nat × Nat) × (Nat × Nat)))
  | 0, _, _ => none
  | fuel + 1, l, i =>
    if l.getD i 0 = 34 then
      match scanStringEnd (l.length + 2) l (i + 1) with
      | none => none
      | some jk =>
        let colonPos := skipWs (l.length + 2) l jk
        if l.getD colonPos 0 = 58 then
          let vStart := skipWs (l.length + 2) l (colonPos + 1)
          match scanValueEnd l vStart with
          | none => none
          | some vEnd =>
            let nxt := skipWs (l.length + 2) l vEnd
            if l.getD nxt 0 = 44 then
              match parseMembersAux fuel l (skipWs (l.length + 2) l (nxt + 1)) with
              | none => none
              | some rest => some (((i + 1, jk - 1), (vStart, vEnd)) :: rest)
            else if l.getD nxt 0 = 125 then
              some [((i + 1, jk - 1), (vStart, vEnd))]
            else none
        else none
    else none

/-- Key and value spans of the members of the top-level JSON object. -/
def parseTopObject (l : Bytes) : Option (List ((Nat × Nat) × (Nat × Nat))) :=
  let i := skipWs (l.length + 2) l 0
  if l.getD i 0 = 123 then
    let j := skipWs (l.length + 2) l (i + 1)
    if l.getD j 0 = 125 then some []
    else parseMembersAux (l.length + 2) l j
  else none

/-- Value span of the first member whose key bytes equal `name`. -/
def findField (l : Bytes) (name : Bytes) :
    List ((Nat × Nat) × (Nat × Nat)) → Option (Nat × Nat)
  | [] => none
  | ((ks, ke), v) :: rest =>
    if byteSlice l ks ke = name then some v else findField l name rest

/-- Spans of the `signatures` and `signed` values of the document. -/
def parseRawSpans (l : Bytes) : Option ((Nat × Nat) × (Nat × Nat)) :=
  match parseTopObject l with
  | none => none
  | some ms =>
    match findField l (strBytes "signatures") ms,
        findField l (strBytes "signed") ms with
    | some a, some b => some (a, b)
    | _, _ => none

/-- Rust `struct RawPolicy` of `policy.rs`: the still-serialized `signatures`
and `signed` fragments. -/
structure RawPolicy where
  signatures : Bytes
  signed : Bytes
deriving DecidableEq, Repr

/-- Deserializing `RawPolicy` from the document bytes: each fragment is
the exact byteSlice of the input covering the corresponding JSON value. -/
def parseRawPolicy (l : Bytes) : Option RawPolicy :=
  match parseRawSpans l with
  | none => none
  | some ((a1, a2), (b1, b2)) => some ⟨byteSlice l a1 a2, byteSlice l b1 b2⟩

/-!
### Decode-time invariants (serde models)

`Signed.version` and `RoleKeys.threshold` are `std::num::NonZeroU64`;
`RoleType` and `Key` are closed enums. Their wire-side decoding is done
by serde (external crate), modelled here from the type declarations in
`policy.rs` and serde's documented semantics.
-/

/-- Modelled from serde + `std::num::NonZeroU64`: deserialize a number as
a `u64` (rejecting values outside 64 bits) and then as nonzero,
rejecting `0`. -/
def NonZeroU64.deserialize (n : Nat) : Except String NonZeroU64 :=
  if h : 0 < n ∧ n < 2 ^ 64 then .ok ⟨n, h⟩
  else .error "invalid value: expected a nonzero u64"

/-- Rust `enum RoleType` of `policy.rs`: closed, single variant `Root`. -/
inductive RoleType where
  | Root
deriving DecidableEq, Repr

/-- Rust `impl TryFrom<&str> for RoleType`: `"Root"` succeeds, anything else is
`Err(anyhow!("Unknown RoleType: {}", other))`. -/
def RoleType.try_from (s : String) : Except String RoleType :=
  if s = "Root" then .ok .Root else .error ("Unknown RoleType: " ++ s)

/-- Modelled serde derive (used by `derive_display_from_serialize!`):
the unit variant serializes to its name. -/
def RoleType.serializeStr : RoleType → String
  | .Root => "Root"

/-- Modelled serde derive (used by `derive_fromstr_from_deserialize!`):
deserializing `RoleType` from a string accepts exactly the variant name
`"Root"` and fails on any other string. -/
def RoleType.deserializeStr (s : String) : Except String RoleType :=
  if s = "Root" then .ok .Root
  else .error ("unknown variant `" ++ s ++ "`, expected `Root`")

/-- The `keytype` tag `Key` serializes with: `"sigstore-oidc"` for the
`SigstoreOidc` variant (`#[serde(rename = "sigstore-oidc")]`). -/
def Key.keytypeTag : Key → String
  | .SigstoreOidc _ _ _ => "sigstore-oidc"

/-- Modelled serde derive for `#[serde(tag = "keytype")] enum Key`:
decoding selects the variant by the tag string; a tag other than
`"sigstore-oidc"` is an unknown-variant failure, never a fallback. -/
def Key.decodeTagged (keytype : String) (keyval : SigstoreOidcKey)
    (scheme : String) (extra : List (String × String)) : Except String Key :=
  if keytype = "sigstore-oidc" then .ok (.SigstoreOidc keyval scheme extra)
  else .error ("unknown variant `" ++ keytype ++ "`, expected `sigstore-oidc`")

/-!
### Spec-side pipeline and helper predicates
-/

/-- Embed a normal Rust `Result` into `RustResult` (no panic). -/
def exceptToRust {α : Type} : Except AnyhowError α → RustResult α
  | .ok a => .ok a
  | .error e => .err e

/-- The key-extraction pipeline exactly as section 4.3 of the spec words
it: base64-decode, then PEM parse, then X.509 parse, then public-key
(SubjectPublicKeyInfo) extraction, then P-256 verification-key decode,
each stage's failure reported by its own distinct error constructor. -/
def extractPubKeySpec (C : ExternCrypto) (cert : String) :
    Except AnyhowError CosignVerificationKey :=
  (Except.mapError .base64 (base64decode (strBytes cert))).bind fun decoded =>
  (Except.mapError .pemParse (C.parse_x509_pem decoded)).bind fun pemContents =>
  (Except.mapError .x509Parse (C.parse_x509_certificate pemContents)).bind fun spki =>
  Except.mapError .keyLoad (C.from_public_key_der spki)

/-- The signature-check pipeline of section 4.4: base64-decode the
signature, parse it from DER, then verify against the exact message. -/
def verifySignatureSpec (C : ExternCrypto) (sigB64 : String)
    (k : CosignVerificationKey) (msg : Bytes) : Except AnyhowError Unit :=
  (Except.mapError .base64 (base64decode (strBytes sigB64))).bind fun raw =>
  (Except.mapError .sigDer (C.signature_from_der raw)).bind fun s =>
  if C.verify k msg s then .ok () else
    .error (.verificationFailed "Verification failed: Error")

/-- Shape of the errors `verify_signature` can produce: a base64 decode
failure, a DER parse failure, or a cryptographic verification failure. -/
def isVerifyFailureShape : AnyhowError → Bool
  | .base64 _ => true
  | .sigDer _ => true
  | .verificationFailed _ => true
  | _ => false

/-- Whether an `Except` is an error. -/
def exceptIsErr {ε α : Type} : Except ε α → Bool
  | .error _ => true
  | .ok _ => false

/-!
### Concrete example values for witnesses and counterexamples
-/

/-- The `NonZeroU64` one. -/
def one64 : NonZeroU64 := ⟨1, by norm_num⟩

/-- The `NonZeroU64` five. -/
def five64 : NonZeroU64 := ⟨5, by norm_num⟩

/-- A signature entry whose `sig` (base64 of bytes 9,1,2,3) the toy
crypto accepts for key `kEx` and message `msgEx`. -/
def sigGood : Signature := { keyid := "goodid", sig := "CQECAw==", cert := "QUJD" }

/-- A signature entry whose `sig` decodes but does not verify. -/
def sigBad : Signature := { keyid := "badid", sig := "QQ==", cert := "QUJD" }

/-- A signature entry whose `sig` contains a byte outside the base64
alphabet (code 33). -/
def sigBang : Signature := { keyid := "bangid", sig := "!", cert := "QUJD" }

/-- A signature entry whose `sig` is empty, so its DER parse fails under
the toy crypto. -/
def sigNoDer : Signature := { keyid := "noderid", sig := "", cert := "QUJD" }

/-- A signature entry with a truncated-base64 `cert` (five symbols,
length 1 mod 4). -/
def sigTrunc : Signature := { keyid := "truncid", sig := "QQ==", cert := "QUJDR" }

/-- A concrete root role listing keyids `goodid` and `badid` with
threshold 1. -/
def rootRoleEx : RoleKeys := { keyids := ["goodid", "badid"], threshold := one64 }

/-- A concrete `Signed` body: expires at instant 100, with the `root`
role `rootRoleEx`. -/
def signedEx : Signed :=
  { consistent_snapshot := true
    expires := 100
    keys := []
    namespaceField := "sget"
    roles := [("root", rootRoleEx)]
    spec_version := "1.0"
    version := one64 }

/-- A concrete verification key for the toy crypto. -/
def kEx : CosignVerificationKey := ⟨[9]⟩

/-- A second, different verification key. -/
def kEx2 : CosignVerificationKey := ⟨[7]⟩

/-- A concrete message. -/
def msgEx : Bytes := [1, 2, 3]

/-- A concrete instantiation of the external crates: PEM and X.509
stages pass bytes through, DER signature parse fails on empty input, and
a signature verifies when its bytes are the key bytes followed by the
message bytes. -/
def toyCrypto : ExternCrypto :=
  { parse_x509_pem := fun b => .ok b
    parse_x509_certificate := fun b => .ok b
    from_public_key_der := fun b => .ok ⟨b⟩
    signature_from_der := fun b =>
      if b = [] then .error "signature error" else .ok ⟨b⟩
    verify := fun k msg s => s.raw == k.raw ++ msg }

/-- Policy whose first entry verifies and whose second does not. -/
def pGoodFirst : Policy := { signatures := [sigGood, sigBad], signed := signedEx }

/-- Policy whose first entry does not verify although its second entry
is the valid, listed signer `sigGood`. -/
def pBadFirst : Policy := { signatures := [sigBad, sigGood], signed := signedEx }

/-- Policy with just the valid entry. -/
def pGoodOnly : Policy := { signatures := [sigGood], signed := signedEx }

/-- Policy with just the non-verifying entry. -/
def pBadOnly : Policy := { signatures := [sigBad], signed := signedEx }

/-- Policy with an empty `signatures` list. -/
def pNoSigs : Policy := { signatures := [], signed := signedEx }

/-- Policy whose only entry has a truncated-base64 `cert`. -/
def pTrunc : Policy := { signatures := [sigTrunc], signed := signedEx }

/-- Policy whose only entry has a non-alphabet byte in `sig`. -/
def pBang : Policy := { signatures := [sigBang], signed := signedEx }

/-- Policy whose only entry has an empty `sig`. -/
def pNoDer : Policy := { signatures := [sigNoDer], signed := signedEx }

/-- A concrete document with idiosyncratic whitespace and number
formatting, for the raw-splitter witness. -/
def docEx : Bytes :=
  strBytes "\x7b \"signatures\" : [],  \"signed\" : \x7b \"v\" :1.50 \x7d \x7d"

/-- A concrete `SigstoreOidcKey`. -/
def kvEx : SigstoreOidcKey := { identity := "subject", issuer := "issuer" }

/-- The raw fragments serde_json hands `RawPolicy` for `docEx`. -/
def rpEx : RawPolicy :=
  { signatures := strBytes "[]", signed := strBytes "\x7b \"v\" :1.50 \x7d" }

/-!
### Helper lemmas
-/

/-- Translating the source's nested matches: `extract_pub_key` computes
the section 4.3 pipeline on the first entry's `cert` whenever the
`signatures` list has a first entry. -/
theorem extract_pub_key_eq_spec (C : ExternCrypto) (p : Policy) (s0 : Signature)
    (h : p.signatures.head? = some s0) :
    Policy.extract_pub_key C p = exceptToRust (extractPubKeySpec C s0.cert) := by
  unfold Policy.extract_pub_key
  rw [h]
  show extractPubKeyOn C s0 = exceptToRust (extractPubKeySpec C s0.cert)
  unfold extractPubKeyOn extractPubKeySpec
  split
  next e heq => rw [heq]; rfl
  next c heq =>
    rw [heq]
    simp only [Except.mapError, Except.bind]
    split
    next e heq2 => rw [heq2]; rfl
    next pc heq2 =>
      rw [heq2]
      simp only [Except.mapError, Except.bind]
      split
      next e heq3 => rw [heq3]; rfl
      next kb heq3 =>
        rw [heq3]
        simp only [Except.mapError, Except.bind]
        split
        next e heq4 => rw [heq4]; rfl
        next k heq4 => rw [heq4]; rfl

/-- Translating the source's nested matches: `verify_signature` computes
the section 4.4 pipeline on the first entry's `sig` whenever the
`signatures` list has a first entry. -/
theorem verify_signature_eq_spec (C : ExternCrypto) (p : Policy) (s0 : Signature)
    (k : CosignVerificationKey) (msg : Bytes)
    (h : p.signatures.head? = some s0) :
    Policy.verify_signature C p k msg =
      exceptToRust (verifySignatureSpec C s0.sig k msg) := by
  unfold Policy.verify_signature
  rw [h]
  show verifySignatureOn C s0 k msg = exceptToRust (verifySignatureSpec C s0.sig k msg)
  unfold verifySignatureOn verifySignatureSpec
  split
  next e heq => rw [heq]; rfl
  next raw heq =>
    rw [heq]
    simp only [Except.mapError, Except.bind]
    split
    next e heq2 => rw [heq2]; rfl
    next s heq2 =>
      rw [heq2]
      simp only [Except.mapError, Except.bind]
      by_cases hv : C.verify k msg s = true
      · simp only [hv, if_true]; rfl
      · simp only [Bool.not_eq_true] at hv
        simp only [hv, Bool.false_eq_true, if_false]; rfl

/-- A normal Rust result is never a panic. -/
theorem exceptToRust_no_panic {α : Type} (x : Except AnyhowError α) :
    (exceptToRust x).isPanic = false := by
  cases x with
  | ok a => rfl
  | error e => rfl

/-- A slice of a byte buffer is a contiguous span of it. -/
theorem byteSlice_split (l : Bytes) (i j : Nat) :
    ∃ pre post, l = pre ++ byteSlice l i j ++ post := by
  refine ⟨l.take i, (l.drop i).drop (j - i), ?_⟩
  simp only [byteSlice, List.append_assoc]
  rw [List.take_append_drop, List.take_append_drop]

/-!
### Claim theorems
-/

/-- C1: the claimed evaluator would process every `signatures` entry and
count distinct valid listed keyids against the Root role's threshold.
The code instead inspects only `signatures[0]`: here the second entry is
the valid signer `sigGood`, whose keyid heads `rootRoleEx.keyids`
(threshold 1), yet `verify_signature` rejects the policy; with the same
two entries swapped it accepts. -/
theorem C1_single_entry_shortcut :
    Policy.verify_signature toyCrypto pBadFirst kEx msgEx =
      .err (.verificationFailed "Verification failed: Error") ∧
    Policy.verify_signature toyCrypto pGoodFirst kEx msgEx = .ok () ∧
    pBadFirst.signatures[1]? = some sigGood ∧
    signedEx.roles = [("root", rootRoleEx)] ∧
    sigGood.keyid ∈ rootRoleEx.keyids ∧
    rootRoleEx.threshold.val = 1 := by decide

/-- C2 counterexample: on a `Policy` whose `signatures` list is empty,
`extract_pub_key` and `verify_signature` do not return a typed error:
`self.signatures[0]` terminates the process with an index-out-of-bounds
panic. -/
theorem C2_empty_signatures_panic :
    Policy.extract_pub_key toyCrypto pNoSigs =
      .panicked "index out of bounds: the len is 0 but the index is 0" ∧
    Policy.verify_signature toyCrypto pNoSigs kEx msgEx =
      .panicked "index out of bounds: the len is 0 but the index is 0" ∧
    (Policy.extract_pub_key toyCrypto pNoSigs).isErr = false := by decide

/-- C2 (amended): for every `Policy` with at least one signature entry,
`extract_pub_key` and `verify_signature` return typed results and never
panic, and a corrupted `cert` (any base64 decode failure, e.g. truncated
input) yields the typed base64 certificate error rather than a crash. -/
theorem C2_typed_errors (C : ExternCrypto) (p : Policy) (s0 : Signature)
    (k : CosignVerificationKey) (msg : Bytes) (e : DecodeError)
    (h : p.signatures.head? = some s0) :
    (Policy.extract_pub_key C p).isPanic = false ∧
    (Policy.verify_signature C p k msg).isPanic = false ∧
    (base64decode (strBytes s0.cert) = .error e →
      Policy.extract_pub_key C p = .err (.base64 e)) := by
  have he := extract_pub_key_eq_spec C p s0 h
  have hv := verify_signature_eq_spec C p s0 k msg h
  refine ⟨by rw [he]; exact exceptToRust_no_panic _,
    by rw [hv]; exact exceptToRust_no_panic _, ?_⟩
  intro hbad
  rw [he]
  unfold extractPubKeySpec
  rw [hbad]
  rfl

/-- C2 witness: the truncated-base64 certificate of `pTrunc` produces
the typed `InvalidLength` base64 error and no panic. -/
theorem C2_typed_errors_witness :
    (Policy.extract_pub_key toyCrypto pTrunc).isPanic = false ∧
    Policy.extract_pub_key toyCrypto pTrunc = .err (.base64 .InvalidLength) :=
  ⟨(C2_typed_errors toyCrypto pTrunc sigTrunc kEx msgEx DecodeError.InvalidLength
      (by decide)).1,
   (C2_typed_errors toyCrypto pTrunc sigTrunc kEx msgEx DecodeError.InvalidLength
      (by decide)).2.2 (by decide)⟩

/-- C3: whenever the raw split succeeds, the `signed` fragment (and the
`signatures` fragment) handed out by `RawPolicy` is byte-identical to a
contiguous span of the original input - no re-serialization, so
whitespace, key order and number formatting are preserved bit-exact. -/
theorem C3_raw_fragment_spans (l : Bytes) (rp : RawPolicy)
    (h : parseRawPolicy l = some rp) :
    (∃ pre post, l = pre ++ rp.signed ++ post) ∧
    (∃ pre post, l = pre ++ rp.signatures ++ post) := by
  unfold parseRawPolicy at h
  cases hs : parseRawSpans l with
  | none => rw [hs] at h; exact absurd h (by simp)
  | some spans =>
    obtain ⟨⟨a1, a2⟩, b1, b2⟩ := spans
    rw [hs] at h
    injection h with h
    subst h
    exact ⟨byteSlice_split l b1 b2, byteSlice_split l a1 a2⟩

/-- C3 witness: on a concrete document with idiosyncratic whitespace and
number formatting, the split yields exactly the `[]` and
`{ "v" :1.50 }` spans of the input. -/
theorem C3_raw_fragment_spans_witness :
    parseRawPolicy docEx = some rpEx ∧
    ((∃ pre post, docEx = pre ++ rpEx.signed ++ post) ∧
     (∃ pre post, docEx = pre ++ rpEx.signatures ++ post)) :=
  ⟨by decide, C3_raw_fragment_spans docEx rpEx (by decide)⟩

/-- C4 counterexample: at the instant `now = expires` (both 100), the
returned duration is 0, which is non-negative, yet `expires` is not
strictly after `now` - the claimed "non-negative iff strictly after"
equivalence fails at the boundary. -/
theorem C4_boundary_counterexample :
    ¬ (0 ≤ Policy.validate_expires pGoodOnly 100 ↔
        100 < pGoodOnly.signed.expires) := by decide

/-- C4 (amended): `validate_expires` returns a non-negative duration iff
`expires` is at or after "now", and a (strictly) positive duration iff
`expires` is strictly after "now". -/
theorem C4_expiry_duration_sign (p : Policy) (now : Int) :
    (0 ≤ Policy.validate_expires p now ↔ now ≤ p.signed.expires) ∧
    (0 < Policy.validate_expires p now ↔ now < p.signed.expires) := by
  unfold Policy.validate_expires
  omega

/-- C5 counterexample: a failed base64 decode of `sig`, a failed DER
parse, and a cryptographic mismatch are all `Err`, but the error values
are pairwise distinct, so the sub-check that failed is visible to the
caller - not the single uniform outcome the claim states. -/
theorem C5_distinct_errors_counterexample :
    Policy.verify_signature toyCrypto pBang kEx msgEx =
      .err (.base64 (.InvalidByte 0 33)) ∧
    Policy.verify_signature toyCrypto pNoDer kEx msgEx =
      .err (.sigDer "signature error") ∧
    Policy.verify_signature toyCrypto pBadOnly kEx msgEx =
      .err (.verificationFailed "Verification failed: Error") ∧
    (AnyhowError.base64 (.InvalidByte 0 33) ≠ .sigDer "signature error") ∧
    (AnyhowError.sigDer "signature error" ≠
      .verificationFailed "Verification failed: Error") ∧
    (AnyhowError.base64 (.InvalidByte 0 33) ≠
      .verificationFailed "Verification failed: Error") := by decide

/-- C5 (amended): every failure of `verify_signature` is an `Err` of one
of the three sub-check shapes (base64, DER parse, verification), and the
error value never depends on the verification key - two runs differing
only in the key that both fail return identical errors, so no key
material leaks through the error. -/
theorem C5_uniform_failure (C : ExternCrypto) (p : Policy)
    (k1 k2 : CosignVerificationKey) (msg : Bytes) (e1 e2 : AnyhowError)
    (h1 : Policy.verify_signature C p k1 msg = .err e1)
    (h2 : Policy.verify_signature C p k2 msg = .err e2) :
    e1 = e2 ∧ isVerifyFailureShape e1 = true := by
  cases hh : p.signatures.head? with
  | none =>
    unfold Policy.verify_signature at h1
    rw [hh] at h1
    exact absurd h1 (by simp)
  | some s0 =>
    rw [verify_signature_eq_spec C p s0 k1 msg hh] at h1
    rw [verify_signature_eq_spec C p s0 k2 msg hh] at h2
    unfold verifySignatureSpec at h1 h2
    cases hb : base64decode (strBytes s0.sig) with
    | error e =>
      rw [hb] at h1 h2
      simp [exceptToRust, Except.mapError, Except.bind] at h1 h2
      subst e1
      subst e2
      exact ⟨rfl, rfl⟩
    | ok raw =>
      rw [hb] at h1 h2
      simp only [Except.mapError, Except.bind] at h1 h2
      cases hd : C.signature_from_der raw with
      | error m =>
        rw [hd] at h1 h2
        simp [exceptToRust, Except.mapError, Except.bind] at h1 h2
        subst e1
        subst e2
        exact ⟨rfl, rfl⟩
      | ok s =>
        rw [hd] at h1 h2
        simp only [Except.mapError, Except.bind] at h1 h2
        cases hv1 : C.verify k1 msg s with
        | true =>
          rw [hv1] at h1
          simp [exceptToRust] at h1
        | false =>
          rw [hv1] at h1
          simp [exceptToRust] at h1
          cases hv2 : C.verify k2 msg s with
          | true =>
            rw [hv2] at h2
            simp [exceptToRust] at h2
          | false =>
            rw [hv2] at h2
            simp [exceptToRust] at h2
            subst e1
            subst e2
            exact ⟨rfl, rfl⟩

/-- C5 witness: a DER-parse failure yields the same error under two
different keys, of one of the three failure shapes. -/
theorem C5_uniform_failure_witness :
    AnyhowError.sigDer "signature error" = .sigDer "signature error" ∧
    isVerifyFailureShape (.sigDer "signature error") = true :=
  C5_uniform_failure toyCrypto pNoDer kEx kEx2 msgEx
    (.sigDer "signature error") (.sigDer "signature error")
    (by decide) (by decide)

/-- C6 counterexample: on a `Policy` with an empty `signatures` list,
`extract_pub_key` performs none of the claimed pipeline steps and
reports none of the four distinct errors: it panics on
`self.signatures[0]`, so its result is neither a success nor an error,
refuting the claim's universal quantification over every `Policy`. -/
theorem C6_empty_policy_counterexample :
    (Policy.extract_pub_key toyCrypto pNoSigs).isPanic = true ∧
    (Policy.extract_pub_key toyCrypto pNoSigs).isErr = false ∧
    Policy.extract_pub_key toyCrypto pNoSigs ≠
      exceptToRust (extractPubKeySpec toyCrypto "") := by decide

/-- C6 (amended): for every `Policy` with at least one signature entry,
`extract_pub_key` is exactly the staged pipeline of section 4.3
- base64 decode, PEM parse, X.509 parse, public-key extraction, P-256
key decode - and the four failure modes are reported by pairwise
distinct errors; with an empty `signatures` list it panics instead. -/
theorem C6_extract_pipeline (C : ExternCrypto) (p : Policy) (s0 : Signature)
    (h : p.signatures.head? = some s0) (d : DecodeError) (m1 m2 : String) :
    Policy.extract_pub_key C p = exceptToRust (extractPubKeySpec C s0.cert) ∧
    AnyhowError.base64 d ≠ AnyhowError.pemParse m1 ∧
    AnyhowError.base64 d ≠ AnyhowError.x509Parse m1 ∧
    AnyhowError.base64 d ≠ AnyhowError.keyLoad m1 ∧
    AnyhowError.pemParse m1 ≠ AnyhowError.x509Parse m2 ∧
    AnyhowError.pemParse m1 ≠ AnyhowError.keyLoad m2 ∧
    AnyhowError.x509Parse m1 ≠ AnyhowError.keyLoad m2 :=
  ⟨extract_pub_key_eq_spec C p s0 h, by simp, by simp, by simp, by simp,
   by simp, by simp⟩

/-- C6 witness: the pipeline equality and the distinctness of the four
failure constructors at concrete values. -/
theorem C6_extract_pipeline_witness :
    Policy.extract_pub_key toyCrypto pGoodOnly =
      exceptToRust (extractPubKeySpec toyCrypto sigGood.cert) ∧
    AnyhowError.base64 .InvalidLength ≠ AnyhowError.pemParse "a" ∧
    AnyhowError.base64 .InvalidLength ≠ AnyhowError.x509Parse "a" ∧
    AnyhowError.base64 .InvalidLength ≠ AnyhowError.keyLoad "a" ∧
    AnyhowError.pemParse "a" ≠ AnyhowError.x509Parse "b" ∧
    AnyhowError.pemParse "a" ≠ AnyhowError.keyLoad "b" ∧
    AnyhowError.x509Parse "a" ≠ AnyhowError.keyLoad "b" :=
  C6_extract_pipeline toyCrypto pGoodOnly sigGood (by decide)
    DecodeError.InvalidLength "a" "b"

/-- C7: a zero `version` or `threshold` is rejected when the number is
decoded into `NonZeroU64`, and the type itself guarantees positivity of
every `Signed.version` and `RoleKeys.threshold` - no later runtime check
is involved. -/
theorem C7_nonzero_decode (n : Nat) (v : NonZeroU64) :
    NonZeroU64.deserialize 0 = .error "invalid value: expected a nonzero u64" ∧
    (NonZeroU64.deserialize n = .ok v → v.val = n ∧ 0 < n) ∧
    0 < v.val ∧
    (∀ s : Signed, 0 < s.version.val) ∧
    (∀ r : RoleKeys, 0 < r.threshold.val) := by
  refine ⟨by decide, ?_, v.2.1, fun s => s.version.2.1, fun r => r.threshold.2.1⟩
  intro hok
  unfold NonZeroU64.deserialize at hok
  split at hok
  next hc =>
    injection hok with hok
    subst hok
    exact ⟨rfl, hc.1⟩
  next hc => exact absurd hok (by simp)

/-- C7 witness: decoding 5 succeeds with value 5, positive. -/
theorem C7_nonzero_decode_witness : five64.val = 5 ∧ 0 < 5 :=
  (C7_nonzero_decode 5 five64).2.1 (by decide)

/-- C8: `RoleType` parses only from `"Root"` and `Key` only from the
`keytype` tag `"sigstore-oidc"`; any other string is an error, never a
fallback, and a successful parse re-encodes to the same string. -/
theorem C8_closed_enums (s t : String) (kv : SigstoreOidcKey) (sch : String)
    (ex : List (String × String)) (r : RoleType) (k : Key) :
    RoleType.try_from "Root" = .ok .Root ∧
    (s ≠ "Root" → exceptIsErr (RoleType.try_from s) = true) ∧
    (RoleType.deserializeStr s = .ok r → RoleType.serializeStr r = s) ∧
    Key.decodeTagged "sigstore-oidc" kv sch ex = .ok (.SigstoreOidc kv sch ex) ∧
    (t ≠ "sigstore-oidc" → exceptIsErr (Key.decodeTagged t kv sch ex) = true) ∧
    (Key.decodeTagged t kv sch ex = .ok k → k.keytypeTag = t) := by
  refine ⟨by decide, ?_, ?_, by unfold Key.decodeTagged; rw [if_pos rfl], ?_, ?_⟩
  · intro hs
    unfold RoleType.try_from
    rw [if_neg hs]
    rfl
  · intro hd
    unfold RoleType.deserializeStr at hd
    split at hd
    next hs =>
      injection hd with hd
      subst hd
      rw [hs]
      rfl
    next hs => exact absurd hd (by simp)
  · intro ht
    unfold Key.decodeTagged
    rw [if_neg ht]
    rfl
  · intro hd
    unfold Key.decodeTagged at hd
    split at hd
    next ht =>
      injection hd with hd
      subst hd
      rw [ht]
      rfl
    next ht => exact absurd hd (by simp)

/-- C8 witness: an unknown role string errors, `Root` round-trips, and a
decoded key re-encodes its tag. -/
theorem C8_closed_enums_witness :
    exceptIsErr (RoleType.try_from "Admin") = true ∧
    RoleType.serializeStr .Root = "Root" ∧
    Key.keytypeTag (.SigstoreOidc kvEx "ES256" []) = "sigstore-oidc" :=
  ⟨(C8_closed_enums "Admin" "x" kvEx "ES256" [] .Root
      (.SigstoreOidc kvEx "ES256" [])).2.1 (by decide),
   (C8_closed_enums "Root" "x" kvEx "ES256" [] .Root
      (.SigstoreOidc kvEx "ES256" [])).2.2.1 (by decide),
   (C8_closed_enums "Root" "sigstore-oidc" kvEx "ES256" [] .Root
      (.SigstoreOidc kvEx "ES256" [])).2.2.2.2.2 (by decide)⟩

/-- C9: contrary to the claim, `validate_expires` takes no "now"
parameter: it reads the ambient clock `Utc::now()` internally. With the
ambient reading made explicit, the same `Policy` yields different
durations at two different clock instants, so the result is not a
function of the Policy and a caller-supplied instant. -/
theorem C9_ambient_clock_dependence :
    Policy.validate_expires pGoodOnly 99 ≠
      Policy.validate_expires pGoodOnly 101 := by decide

/-- C10: policies sharing the same first signature entry are
indistinguishable to `extract_pub_key` and `verify_signature`: entries
beyond index 0 never influence either result. -/
theorem C10_first_entry_determines (C : ExternCrypto) (p1 p2 : Policy)
    (s0 : Signature) (k : CosignVerificationKey) (msg : Bytes)
    (h1 : p1.signatures.head? = some s0)
    (h2 : p2.signatures.head? = some s0) :
    Policy.extract_pub_key C p1 = Policy.extract_pub_key C p2 ∧
    Policy.verify_signature C p1 k msg = Policy.verify_signature C p2 k msg := by
  unfold Policy.extract_pub_key Policy.verify_signature
  rw [h1, h2]
  exact ⟨rfl, rfl⟩

/-- C10 witness: dropping the second entry of `pGoodFirst` changes
neither result. -/
theorem C10_first_entry_determines_witness :
    Policy.extract_pub_key toyCrypto pGoodFirst =
      Policy.extract_pub_key toyCrypto pGoodOnly ∧
    Policy.verify_signature toyCrypto pGoodFirst kEx msgEx =
      Policy.verify_signature toyCrypto pGoodOnly kEx msgEx :=
  C10_first_entry_determines toyCrypto pGoodFirst pGoodOnly sigGood kEx msgEx
    (by decide) (by decide)
